import Mathlib

/-!
Shallow embedding of `src/app.py` (a Flask personal-site backend that logs
visits into a `Visitor` table, stores contact-form submissions in a
`ContactMessage` table, and exposes admin aggregation endpoints).

Modelling conventions:
* Python strings are Lean `String`s; Python substring tests (`in`),
  `str.startswith`, `str.split(',')[0]`, `str.lower` and the CSV quoting of
  the `csv` module are given explicit structural definitions on `List Char`
  so that every definition is executable and kernel-reducible.
* WSGI environ entries and Flask form/header fields are `Option String`;
  Python truthiness of such an entry (`if environ.get(k):`) is
  "present and non-empty" (`envTruthy`).
* `datetime` values are modelled as `Nat` ticks (seconds); `isoformat` is an
  injective rendering to `String`.  `uuid.uuid4()` results are passed in as
  explicit `String` parameters (`fresh`, `fallback`) since they are the only
  nondeterministic inputs.
* The SQLAlchemy session is a pair of append-only lists (`DB`); the
  auto-increment surrogate key is modelled as `length + 1` at insert time.
  A possible persistence failure of `db.session.commit()` is modelled by the
  booleans `visitOk` (Visitor inserts) and `msgOk` (ContactMessage inserts).
-/

namespace Photo

/-- Python `needle in hay` on character lists: some suffix of `hay` has
`needle` as a prefix. -/
def containsSub (needle : List Char) : List Char → Bool
  | [] => needle.isPrefixOf ([] : List Char)
  | c :: t => needle.isPrefixOf (c :: t) || containsSub needle t

/-- Python `needle in hay` on strings. -/
def strIn (needle hay : String) : Bool :=
  containsSub needle.data hay.data

/-- Python `s.lower()` (ASCII case folding, which covers user-agent strings). -/
def pyLower (s : String) : String :=
  String.mk (s.data.map Char.toLower)

/-- Python `s.startswith(pre)`. -/
def pyStartswith (pre s : String) : Bool :=
  pre.data.isPrefixOf s.data

/-- Split a character list at every occurrence of `sep`
(Python `s.split(sep)` for a one-character separator; always nonempty). -/
def splitChar (sep : Char) : List Char → List (List Char)
  | [] => [[]]
  | c :: t =>
    let r := splitChar sep t
    if c = sep then [] :: r
    else
      match r with
      | [] => [[c]]
      | h :: rt => (c :: h) :: rt

/-- Python `s.split(',')[0]` (safe: `split` always returns at least one part). -/
def pyFirstSplit (s : String) : String :=
  String.mk ((splitChar ',' s.data).headD [])

/-- Python truthiness of a WSGI environ entry / form field:
the key is present and its value is a non-empty string. -/
def envTruthy : Option String → Bool
  | some s => !(s == "")
  | none => false

/-- One inbound HTTP request, as the handlers observe it. -/
structure Request where
  path : String
  httpMethod : String
  xForwardedFor : Option String
  xRealIp : Option String
  remoteAddr : Option String
  userAgent : Option String
  referrer : Option String
  host : String
  formName : Option String
  formEmail : Option String
  formMessage : Option String
deriving Repr, DecidableEq

/-- `get_client_ip` (src/app.py lines 50-57): forwarded-for header if truthy
(first comma-separated value), else real-IP header if truthy, else
`REMOTE_ADDR` with default `"Unknown"`. -/
def get_client_ip (req : Request) : String :=
  if envTruthy req.xForwardedFor then
    pyFirstSplit (req.xForwardedFor.getD "")
  else if envTruthy req.xRealIp then
    req.xRealIp.getD ""
  else
    req.remoteAddr.getD "Unknown"

/-- `parse_user_agent` (src/app.py lines 59-89).  The argument is
`Option String` because the Python parameter may be `None`; the guard
`user_agent_string.lower() if user_agent_string else ''` is Python
truthiness. -/
def parse_user_agent (uas : Option String) : String × String :=
  let ua := match uas with
    | some s => if s == "" then "" else pyLower s
    | none => ""
  let browser :=
    if strIn "chrome" ua then "Chrome"
    else if strIn "firefox" ua then "Firefox"
    else if strIn "safari" ua then "Safari"
    else if strIn "edge" ua then "Edge"
    else "Unknown"
  let platform :=
    if strIn "windows" ua then "Windows"
    else if strIn "mac" ua then "macOS"
    else if strIn "linux" ua then "Linux"
    else if strIn "android" ua then "Android"
    else if strIn "iphone" ua || strIn "ipad" ua then "iOS"
    else "Unknown"
  (browser, platform)

/-- A persisted `Visitor` row (src/app.py lines 25-39).  The reserved
`country`/`city` columns are never populated and are omitted. -/
structure VisitorRow where
  id : Nat
  sessionId : String
  ipAddress : String
  userAgent : String
  timestamp : Nat
  page : String
  action : String
  referrer : Option String
  host : String
  httpMethod : String
  platform : String
  browser : String
deriving Repr, DecidableEq

/-- A persisted `ContactMessage` row (src/app.py lines 41-48). -/
structure ContactRow where
  id : Nat
  name : String
  email : String
  message : String
  ipAddress : String
  timestamp : Nat
  readFlag : Bool
deriving Repr, DecidableEq

/-- The database: the two append-only tables. -/
structure DB where
  visitors : List VisitorRow
  messages : List ContactRow
deriving Repr, DecidableEq

/-- Per-request environment facts that the code obtains from the outside
world: whether the two kinds of `db.session.commit()` succeed, the current
clock, and the two `uuid.uuid4()` draws. -/
structure Ctx where
  visitOk : Bool
  msgOk : Bool
  now : Nat
  fresh : String
  fallback : String
deriving Repr, DecidableEq

/-- The `Visitor(...)` row constructed inside `log_visitor`
(src/app.py lines 98-109): `session.get('session_id', str(uuid.uuid4()))`,
IP via `get_client_ip`, UA classification via `parse_user_agent`. -/
def mkVisitorRow (idv : Nat) (now : Nat) (sess : Option String)
    (fallback : String) (req : Request) (page action : String) : VisitorRow :=
  { id := idv
    sessionId := sess.getD fallback
    ipAddress := get_client_ip req
    userAgent := req.userAgent.getD ""
    timestamp := now
    page := page
    action := action
    referrer := req.referrer
    host := req.host
    httpMethod := req.httpMethod
    platform := (parse_user_agent (some (req.userAgent.getD ""))).2
    browser := (parse_user_agent (some (req.userAgent.getD ""))).1 }

/-- The body of the `try` block of `log_visitor` (src/app.py lines 93-112):
either the commit succeeds and one row is appended, or the persistence step
raises (modelled by `ok = false`). -/
def log_visitor_attempt (ok : Bool) (now : Nat) (sess : Option String)
    (fallback : String) (req : Request) (page action : String) (db : DB) :
    Except String DB :=
  if ok then
    .ok { db with
      visitors := db.visitors ++
        [mkVisitorRow (db.visitors.length + 1) now sess fallback req page action] }
  else .error "DB failure"

/-- `log_visitor` (src/app.py lines 91-119): the `except` clause swallows the
error and rolls the transaction back, so the function always returns a
database state (unchanged on failure). -/
def log_visitor (ok : Bool) (now : Nat) (sess : Option String)
    (fallback : String) (req : Request) (page action : String) (db : DB) : DB :=
  match log_visitor_attempt ok now sess fallback req page action db with
  | .ok db2 => db2
  | .error _ => db

/-- The middleware's logging guard (src/app.py line 128):
`not request.path.startswith('/static') and request.path != '/admin/logs'`. -/
def mwLogs (req : Request) : Bool :=
  !pyStartswith "/static" req.path && req.path != "/admin/logs"

/-- `before_request` (src/app.py lines 121-129): assign a session id on first
contact, then log the visit unless the path is a static asset or the raw
log-retrieval admin path. -/
def before_request (ctx : Ctx) (req : Request) (sess : Option String)
    (db : DB) : Option String × DB :=
  let sess2 := if sess.isNone then some ctx.fresh else sess
  if mwLogs req then
    (sess2, log_visitor ctx.visitOk ctx.now sess2 ctx.fallback req req.path "VISIT" db)
  else
    (sess2, db)

/-- Serialized form of a `Visitor` row as produced by `/admin/logs`
(src/app.py lines 187-200). -/
structure LogEntry where
  id : Nat
  sessionId : String
  ip : String
  userAgent : String
  timestamp : String
  page : String
  action : String
  referrer : Option String
  host : String
  httpMethod : String
  platform : String
  browser : String
deriving Repr, DecidableEq

/-- Serialized form of a `ContactMessage` row as produced by
`/admin/messages` (src/app.py lines 263-271). -/
structure MsgEntry where
  id : Nat
  name : String
  email : String
  message : String
  ipAddress : String
  timestamp : String
  readFlag : Bool
deriving Repr, DecidableEq

/-- The HTTP responses the application can produce. -/
inductive Response where
  | rendered (template : String)
  | jsonStatus (status msg : String)
  | logsPayload (logs : List LogEntry) (total uniqueVisitors : Nat)
  | statsPayload (totalVisits uniqueVisitors totalMessages : Nat)
      (topPages : List (String × Nat)) (topBrowsers : List (String × Nat))
      (hourly : List (Nat × Nat))
  | messagesPayload (msgs : List MsgEntry)
  | csvAttachment (body : String)
  | staticAsset
  | httpError (code : Nat)
deriving Repr, DecidableEq

/-- `datetime.isoformat`, on tick-modelled timestamps: an injective rendering. -/
def isoformat (n : Nat) : String := toString n

/-- Stable insertion, descending in `key` (models `ORDER BY ... DESC`). -/
def insertDescBy {α : Type} (key : α → Nat) (x : α) : List α → List α
  | [] => [x]
  | y :: t => if key x ≤ key y then y :: insertDescBy key x t else x :: y :: t

/-- Sort descending in `key` (models `ORDER BY ... DESC`; SQLite's tie order
is unspecified, any fixed order is a faithful model). -/
def sortDescBy {α : Type} (key : α → Nat) : List α → List α
  | [] => []
  | x :: t => insertDescBy key x (sortDescBy key t)

/-- Visitor rows ordered by `timestamp` descending. -/
def sortedByTsDesc (l : List VisitorRow) : List VisitorRow :=
  sortDescBy VisitorRow.timestamp l

/-- `SELECT DISTINCT ... COUNT`: the number of distinct values in a column. -/
def distinctCount (l : List String) : Nat := l.dedup.length

/-- The per-row dict built by `/admin/logs` (src/app.py lines 187-200). -/
def serializeLog (v : VisitorRow) : LogEntry :=
  { id := v.id
    sessionId := v.sessionId
    ip := v.ipAddress
    userAgent := v.userAgent
    timestamp := isoformat v.timestamp
    page := v.page
    action := v.action
    referrer := v.referrer
    host := v.host
    httpMethod := v.httpMethod
    platform := v.platform
    browser := v.browser }

/-- `admin_logs` (src/app.py lines 179-212): the 100 most recent rows,
the total count, and the count of distinct `ip_address` values. -/
def admin_logs (db : DB) : Response :=
  .logsPayload (((sortedByTsDesc db.visitors).take 100).map serializeLog)
    db.visitors.length
    (distinctCount (db.visitors.map VisitorRow.ipAddress))

/-- Group a column into `(value, count)` pairs (models `GROUP BY` + `COUNT`). -/
def groupCounts (l : List String) : List (String × Nat) :=
  l.dedup.map (fun s => (s, l.count s))

/-- Stable insertion, descending in the count component. -/
def insertCountDesc (x : String × Nat) :
    List (String × Nat) → List (String × Nat)
  | [] => [x]
  | y :: t => if x.2 ≤ y.2 then y :: insertCountDesc x t else x :: y :: t

/-- Sort `(value, count)` pairs by count descending (ties in unspecified
engine order; the spec documents them as non-deterministic). -/
def sortCountDesc : List (String × Nat) → List (String × Nat)
  | [] => []
  | x :: t => insertCountDesc x (sortCountDesc t)

/-- Stable insertion, ascending in the hour component. -/
def insertHourAsc (x : Nat × Nat) : List (Nat × Nat) → List (Nat × Nat)
  | [] => [x]
  | y :: t => if y.1 ≤ x.1 then y :: insertHourAsc x t else x :: y :: t

/-- Sort hourly buckets by hour ascending (models `ORDER BY hour`). -/
def sortHourAsc : List (Nat × Nat) → List (Nat × Nat)
  | [] => []
  | x :: t => insertHourAsc x (sortHourAsc t)

/-- `admin_stats` (src/app.py lines 214-254): totals, distinct-IP count,
top pages/browsers by count, and the trailing-24h hourly histogram
(hour-of-day from tick timestamps; 86400 ticks = 24 hours). -/
def admin_stats (now : Nat) (db : DB) : Response :=
  let unique := distinctCount (db.visitors.map VisitorRow.ipAddress)
  let topPages :=
    (sortCountDesc (groupCounts (db.visitors.map VisitorRow.page))).take 10
  let topBrowsers :=
    (sortCountDesc (groupCounts (db.visitors.map VisitorRow.browser))).take 5
  let recent := db.visitors.filter (fun v => decide (now ≤ v.timestamp + 86400))
  let hours := recent.map (fun v => v.timestamp / 3600 % 24)
  let hourly := sortHourAsc (hours.dedup.map (fun h => (h, hours.count h)))
  .statsPayload db.visitors.length unique db.messages.length
    topPages topBrowsers hourly

/-- The per-row dict built by `/admin/messages` (src/app.py lines 263-271). -/
def serializeMsg (c : ContactRow) : MsgEntry :=
  { id := c.id
    name := c.name
    email := c.email
    message := c.message
    ipAddress := c.ipAddress
    timestamp := isoformat c.timestamp
    readFlag := c.readFlag }

/-- `admin_messages` (src/app.py lines 256-276): all messages, newest first. -/
def admin_messages (db : DB) : Response :=
  .messagesPayload ((sortDescBy ContactRow.timestamp db.messages).map serializeMsg)

/-- CSV line terminator of Python's `csv` module. -/
def crlf : List Char := [Char.ofNat 13, '\n']

/-- Double every double-quote (Python `csv` quoting inside a quoted field). -/
def csvEscapeQuotes : List Char → List Char
  | [] => []
  | c :: t =>
    if c = '\"' then '\"' :: '\"' :: csvEscapeQuotes t
    else c :: csvEscapeQuotes t

/-- One CSV field, quoted exactly when it contains a separator, a quote or a
line break (Python `csv.QUOTE_MINIMAL`). -/
def csvField (s : String) : List Char :=
  if s.data.any (fun c => c = ',' || c = '\"' || c = '\n' || c = Char.ofNat 13) then
    '\"' :: (csvEscapeQuotes s.data ++ ['\"'])
  else s.data

/-- Comma-join a list of already-rendered CSV fields. -/
def interComma : List (List Char) → List Char
  | [] => []
  | [l] => l
  | l :: t => l ++ ',' :: interComma t

/-- One CSV record from a list of raw field values. -/
def csvLineChars (fields : List String) : List Char :=
  interComma (fields.map csvField)

/-- Terminate every line with CRLF and concatenate (the `csv` writer). -/
def joinLinesChars : List (List Char) → List Char
  | [] => []
  | l :: t => l ++ crlf ++ joinLinesChars t

/-- The ordered `(fieldname, value)` dict built per row by `/admin/export`
(src/app.py lines 285-298); `None` values print as empty strings. -/
def exportDict (v : VisitorRow) : List (String × String) :=
  [("id", toString v.id),
   ("session_id", v.sessionId),
   ("ip_address", v.ipAddress),
   ("user_agent", v.userAgent),
   ("timestamp", isoformat v.timestamp),
   ("page", v.page),
   ("action", v.action),
   ("referrer", v.referrer.getD ""),
   ("host", v.host),
   ("method", v.httpMethod),
   ("platform", v.platform),
   ("browser", v.browser)]

/-- `export_logs` (src/app.py lines 278-316): rows newest first,
`fieldnames = data[0].keys() if data else []`, then `writeheader` +
`writerows` into one CSV body. -/
def export_logs (db : DB) : Response :=
  let data := (sortedByTsDesc db.visitors).map exportDict
  let fieldnames : List String :=
    match data with
    | [] => []
    | d :: _ => d.map Prod.fst
  let headerLine := csvLineChars fieldnames
  let rowLines := data.map (fun d => csvLineChars (d.map Prod.snd))
  .csvAttachment (String.mk (joinLinesChars (headerLine :: rowLines)))

/-- `contact_submit` (src/app.py lines 150-173): persist the message (the
`nullable=False` columns make the commit fail when a field is missing, and
`msgOk = false` models an external persistence failure), then log the visit
with the synthetic `CONTACT_SUBMIT:<name>` tag, then answer success; any
failure before the `log_visitor` call answers the generic error payload. -/
def contact_submit (ctx : Ctx) (sess : Option String) (req : Request)
    (db : DB) : Response × DB :=
  match req.formName, req.formEmail, req.formMessage with
  | some n, some e, some m =>
    if ctx.msgOk then
      let db1 := { db with
        messages := db.messages ++
          [{ id := db.messages.length + 1, name := n, email := e, message := m
             ipAddress := get_client_ip req, timestamp := ctx.now
             readFlag := false }] }
      let db2 := log_visitor ctx.visitOk ctx.now sess ctx.fallback req
        "/contact" ("CONTACT_SUBMIT:" ++ n) db1
      (.jsonStatus "success" "Message envoyé avec succès!", db2)
    else (.jsonStatus "error" "Erreur lors de l\x27envoi", db)
  | _, _, _ => (.jsonStatus "error" "Erreur lors de l\x27envoi", db)

/-- Route dispatch (src/app.py lines 131-316): Flask's URL map restricted to
the declared routes; unmatched paths give 404, matched paths with an
undeclared method give 405.  Handlers for `/portfolio`, `/about` and
`/contact` call `log_visitor` themselves in addition to the middleware. -/
def dispatch (ctx : Ctx) (sess : Option String) (req : Request) (db : DB) :
    Response × DB :=
  if req.path = "/" then
    if req.httpMethod = "GET" then (.rendered "index.html", db)
    else (.httpError 405, db)
  else if req.path = "/portfolio" then
    if req.httpMethod = "GET" then
      (.rendered "portfolio.html",
       log_visitor ctx.visitOk ctx.now sess ctx.fallback req
         "/portfolio" "PORTFOLIO_VIEW" db)
    else (.httpError 405, db)
  else if req.path = "/about" then
    if req.httpMethod = "GET" then
      (.rendered "about.html",
       log_visitor ctx.visitOk ctx.now sess ctx.fallback req
         "/about" "ABOUT_VIEW" db)
    else (.httpError 405, db)
  else if req.path = "/contact" then
    if req.httpMethod = "GET" then
      (.rendered "contact.html",
       log_visitor ctx.visitOk ctx.now sess ctx.fallback req
         "/contact" "CONTACT_VIEW" db)
    else if req.httpMethod = "POST" then
      contact_submit ctx sess req db
    else (.httpError 405, db)
  else if req.path = "/admin" then
    if req.httpMethod = "GET" then (.rendered "admin.html", db)
    else (.httpError 405, db)
  else if req.path = "/admin/logs" then
    if req.httpMethod = "GET" then (admin_logs db, db)
    else (.httpError 405, db)
  else if req.path = "/admin/stats" then
    if req.httpMethod = "GET" then (admin_stats ctx.now db, db)
    else (.httpError 405, db)
  else if req.path = "/admin/messages" then
    if req.httpMethod = "GET" then (admin_messages db, db)
    else (.httpError 405, db)
  else if req.path = "/admin/export" then
    if req.httpMethod = "GET" then (export_logs db, db)
    else (.httpError 405, db)
  else if pyStartswith "/static" req.path then (.staticAsset, db)
  else (.httpError 404, db)

/-- Full handling of one request: the `before_request` middleware (session
assignment + conditional visit logging) followed by route dispatch.
Returns the response, the session after the request, and the database. -/
def handle_request (ctx : Ctx) (sess : Option String) (req : Request)
    (db : DB) : Response × Option String × DB :=
  let p := before_request ctx req sess db
  let q := dispatch ctx p.1 req p.2
  (q.1, p.1, q.2)

/-! ### Decomposition lemmas: which rows one request appends -/

/-- The session id in effect after `before_request`: the stored one, or the
freshly generated one on first contact. -/
def sidAfter (ctx : Ctx) (sess : Option String) : String :=
  sess.getD ctx.fresh

/-- Which handler-level `log_visitor` call (page, action) the dispatched
route performs, if any; mirrors the route handlers in src/app.py. -/
def handlerCall (msgOk : Bool) (req : Request) : Option (String × String) :=
  if req.path = "/portfolio" then
    if req.httpMethod = "GET" then some ("/portfolio", "PORTFOLIO_VIEW") else none
  else if req.path = "/about" then
    if req.httpMethod = "GET" then some ("/about", "ABOUT_VIEW") else none
  else if req.path = "/contact" then
    if req.httpMethod = "GET" then some ("/contact", "CONTACT_VIEW")
    else if req.httpMethod = "POST" then
      match req.formName, req.formEmail, req.formMessage with
      | some n, some _, some _ =>
        if msgOk then some ("/contact", "CONTACT_SUBMIT:" ++ n) else none
      | _, _, _ => none
    else none
  else none

/-- Visitor rows appended by the dispatched handler. -/
def handlerRows (ctx : Ctx) (sess : Option String) (req : Request) (n : Nat) :
    List VisitorRow :=
  match handlerCall ctx.msgOk req with
  | some pa =>
    if ctx.visitOk then
      [mkVisitorRow (n + 1) ctx.now sess ctx.fallback req pa.1 pa.2]
    else []
  | none => []

/-- Visitor rows appended by the `before_request` middleware. -/
def mwRows (ctx : Ctx) (sid : String) (req : Request) (n : Nat) :
    List VisitorRow :=
  if mwLogs req && ctx.visitOk then
    [mkVisitorRow (n + 1) ctx.now (some sid) ctx.fallback req req.path "VISIT"]
  else []

/-- All Visitor rows appended while handling one request, middleware first. -/
def newRowsModel (ctx : Ctx) (sess : Option String) (req : Request) (n : Nat) :
    List VisitorRow :=
  let sid := sidAfter ctx sess
  mwRows ctx sid req n ++
    handlerRows ctx (some sid) req (n + (mwRows ctx sid req n).length)

/-- ContactMessage rows appended while handling one request. -/
def newMsgsModel (ctx : Ctx) (req : Request) (m : Nat) : List ContactRow :=
  if req.path = "/contact" ∧ req.httpMethod = "POST" then
    match req.formName, req.formEmail, req.formMessage with
    | some n, some e, some m0 =>
      if ctx.msgOk then
        [{ id := m + 1, name := n, email := e, message := m0
           ipAddress := get_client_ip req, timestamp := ctx.now
           readFlag := false }]
      else []
    | _, _, _ => []
  else []

/-- The `unique_visitors` field of a JSON payload, when it has one. -/
def respUnique : Response → Option Nat
  | .logsPayload _ _ u => some u
  | .statsPayload _ u _ _ _ _ => some u
  | _ => none

/-- The CSV body of an export response, when it is one. -/
def respCsv : Response → Option String
  | .csvAttachment b => some b
  | _ => none

/-- The characters of a CSV body before the first carriage return:
its header line. -/
def firstLineChars : List Char → List Char
  | [] => []
  | c :: t => if c = Char.ofNat 13 then [] else c :: firstLineChars t

/-! ### Concrete fixtures for witnesses and counterexamples -/

/-- An environment where every persistence step succeeds. -/
def ctxAllOk : Ctx :=
  { visitOk := true, msgOk := true, now := 0, fresh := "S", fallback := "F" }

/-- An environment where Visitor persistence fails. -/
def ctxVisitFail : Ctx :=
  { visitOk := false, msgOk := true, now := 0, fresh := "S", fallback := "F" }

/-- A plain GET request for the index page. -/
def reqIndex : Request :=
  { path := "/", httpMethod := "GET", xForwardedFor := none, xRealIp := none,
    remoteAddr := some "1.2.3.4", userAgent := some "UA", referrer := none,
    host := "h", formName := none, formEmail := none, formMessage := none }

/-- A GET request for the portfolio page. -/
def reqPortfolio : Request :=
  { reqIndex with path := "/portfolio" }

/-- A GET request for the raw log-retrieval admin path. -/
def reqAdminLogs : Request :=
  { reqIndex with path := "/admin/logs" }

/-- A request carrying an empty forwarded-for header and a real-IP header. -/
def reqForwardEmpty : Request :=
  { reqIndex with xForwardedFor := some "", xRealIp := some "9.9.9.9" }

/-- A request carrying a multi-valued forwarded-for header. -/
def reqForwardMulti : Request :=
  { reqIndex with xForwardedFor := some "7.7.7.7,8.8.8.8" }

/-- A valid contact-form POST. -/
def reqContact : Request :=
  { path := "/contact", httpMethod := "POST", xForwardedFor := none,
    xRealIp := none, remoteAddr := some "2.2.2.2",
    userAgent := some "curl/8", referrer := none, host := "h",
    formName := some "Alice", formEmail := some "a@b.c",
    formMessage := some "hi" }

/-- A stored Visitor row. -/
def rowA : VisitorRow :=
  { id := 1, sessionId := "sessA", ipAddress := "1.1.1.1", userAgent := "ua",
    timestamp := 10, page := "/", action := "VISIT", referrer := none,
    host := "h", httpMethod := "GET", platform := "Windows",
    browser := "Chrome" }

/-- A second stored Visitor row: same IP address, different session id. -/
def rowB : VisitorRow :=
  { id := 2, sessionId := "sessB", ipAddress := "1.1.1.1", userAgent := "ua",
    timestamp := 20, page := "/about", action := "ABOUT_VIEW",
    referrer := none, host := "h", httpMethod := "GET",
    platform := "Windows", browser := "Chrome" }

/-- A database whose two Visitor rows share one IP across two sessions. -/
def dbTwoSessions : DB := ⟨[rowA, rowB], []⟩

/-! ### Helper lemmas -/

lemma log_visitor_eq (ok : Bool) (now : Nat) (sess : Option String)
    (fb : String) (req : Request) (page action : String) (db : DB) :
    log_visitor ok now sess fb req page action db =
      if ok then
        { db with visitors := db.visitors ++
            [mkVisitorRow (db.visitors.length + 1) now sess fb req page action] }
      else db := by
  cases ok <;> rfl

lemma log_visitor_messages (ok : Bool) (now : Nat) (sess : Option String)
    (fb : String) (req : Request) (page action : String) (db : DB) :
    (log_visitor ok now sess fb req page action db).messages = db.messages := by
  cases ok <;> rfl

lemma before_request_eq (ctx : Ctx) (req : Request) (sess : Option String)
    (db : DB) :
    before_request ctx req sess db =
      (some (sidAfter ctx sess),
       { db with visitors := db.visitors ++
           mwRows ctx (sidAfter ctx sess) req db.visitors.length }) := by
  cases sess <;> cases hmw : mwLogs req <;> cases hvk : ctx.visitOk <;>
    simp [before_request, mwRows, log_visitor_eq, sidAfter, hmw, hvk]

lemma dispatch_visitors (ctx : Ctx) (sess : Option String) (req : Request)
    (db : DB) :
    (dispatch ctx sess req db).2.visitors =
      db.visitors ++ handlerRows ctx sess req db.visitors.length := by
  by_cases h1 : req.path = "/"
  · by_cases hm : req.httpMethod = "GET" <;>
      simp [dispatch, handlerRows, handlerCall, h1, hm]
  · by_cases h2 : req.path = "/portfolio"
    · rw [h2] at h1
      by_cases hm : req.httpMethod = "GET" <;>
        cases hvk : ctx.visitOk <;>
          simp [dispatch, handlerRows, handlerCall, h1, h2, hm, hvk,
            log_visitor_eq]
    · by_cases h3 : req.path = "/about"
      · rw [h3] at h1 h2
        by_cases hm : req.httpMethod = "GET" <;>
          cases hvk : ctx.visitOk <;>
            simp [dispatch, handlerRows, handlerCall, h1, h2, h3, hm, hvk,
              log_visitor_eq]
      · by_cases h4 : req.path = "/contact"
        · rw [h4] at h1 h2 h3
          by_cases hm : req.httpMethod = "GET"
          · cases hvk : ctx.visitOk <;>
              simp [dispatch, handlerRows, handlerCall, h1, h2, h3, h4, hm,
                hvk, log_visitor_eq]
          · by_cases hp : req.httpMethod = "POST"
            · rcases hn : req.formName with _ | n <;>
                rcases he : req.formEmail with _ | e <;>
                  rcases hmsg : req.formMessage with _ | m <;>
                    cases hok : ctx.msgOk <;>
                      cases hvk : ctx.visitOk <;>
                        simp [dispatch, contact_submit, handlerRows,
                          handlerCall, h1, h2, h3, h4, hm, hp, hn, he, hmsg,
                          hok, hvk, log_visitor_eq]
            · simp [dispatch, handlerRows, handlerCall, h1, h2, h3, h4, hm, hp]
        · have hrows : handlerRows ctx sess req db.visitors.length = [] := by
            simp [handlerRows, handlerCall, h1, h2, h3, h4]
          rw [hrows]
          unfold dispatch
          split_ifs <;> simp

set_option maxHeartbeats 1000000 in
lemma dispatch_messages (ctx : Ctx) (sess : Option String) (req : Request)
    (db : DB) :
    (dispatch ctx sess req db).2.messages =
      db.messages ++ newMsgsModel ctx req db.messages.length := by
  by_cases h4 : req.path = "/contact"
  · have h1 : ¬req.path = "/" := by rw [h4]; decide
    have h2 : ¬req.path = "/portfolio" := by rw [h4]; decide
    have h3 : ¬req.path = "/about" := by rw [h4]; decide
    by_cases hm : req.httpMethod = "GET"
    · have hp : ¬req.httpMethod = "POST" := by rw [hm]; decide
      cases hvk : ctx.visitOk <;>
        simp [dispatch, newMsgsModel, h1, h2, h3, h4, hm, hp, hvk,
          log_visitor_eq]
    · by_cases hp : req.httpMethod = "POST"
      · rcases hn : req.formName with _ | n <;>
          rcases he : req.formEmail with _ | e <;>
            rcases hmsg : req.formMessage with _ | m <;>
              cases hok : ctx.msgOk <;>
                cases hvk : ctx.visitOk <;>
                  simp [dispatch, contact_submit, newMsgsModel, h1, h2, h3,
                    h4, hm, hp, hn, he, hmsg, hok, hvk, log_visitor_eq]
      · simp [dispatch, newMsgsModel, h1, h2, h3, h4, hm, hp]
  · have hmsgs : newMsgsModel ctx req db.messages.length = [] := by
      simp [newMsgsModel, h4]
    rw [hmsgs]
    unfold dispatch
    split_ifs <;> simp [log_visitor_messages]

lemma handle_request_sess (ctx : Ctx) (sess : Option String) (req : Request)
    (db : DB) :
    (handle_request ctx sess req db).2.1 = some (sidAfter ctx sess) := by
  simp [handle_request, before_request_eq]

lemma handle_request_visitors (ctx : Ctx) (sess : Option String)
    (req : Request) (db : DB) :
    (handle_request ctx sess req db).2.2.visitors =
      db.visitors ++ newRowsModel ctx sess req db.visitors.length := by
  simp only [handle_request, before_request_eq, newRowsModel]
  rw [dispatch_visitors]
  simp [List.append_assoc, List.length_append]

lemma handle_request_messages (ctx : Ctx) (sess : Option String)
    (req : Request) (db : DB) :
    (handle_request ctx sess req db).2.2.messages =
      db.messages ++ newMsgsModel ctx req db.messages.length := by
  simp only [handle_request, before_request_eq]
  rw [dispatch_messages]

lemma newRowsModel_sid (ctx : Ctx) (sess : Option String) (req : Request)
    (n : Nat) :
    ∀ v ∈ newRowsModel ctx sess req n, v.sessionId = sidAfter ctx sess := by
  intro v hv
  unfold newRowsModel mwRows handlerRows at hv
  have hrow : ∀ (idv : Nat) (p a : String),
      v = mkVisitorRow idv ctx.now (some (sidAfter ctx sess)) ctx.fallback
            req p a →
      v.sessionId = sidAfter ctx sess := by
    intro idv p a hve
    rw [hve]
    rfl
  rcases List.mem_append.mp hv with h | h
  · by_cases hcond : (mwLogs req && ctx.visitOk) = true
    · rw [if_pos hcond] at h
      exact hrow _ _ _ (List.mem_singleton.mp h)
    · rw [if_neg hcond] at h
      exact absurd h (List.not_mem_nil v)
  · rcases hc : handlerCall ctx.msgOk req with _ | pa <;> rw [hc] at h <;>
      dsimp only at h
    · exact absurd h (List.not_mem_nil v)
    · by_cases hvk : ctx.visitOk = true
      · rw [if_pos hvk] at h
        exact hrow _ _ _ (List.mem_singleton.mp h)
      · rw [if_neg hvk] at h
        exact absurd h (List.not_mem_nil v)

lemma visit_ne_tag (n : String) :
    (("VISIT" : String) == "CONTACT_SUBMIT:" ++ n) = false := by
  rw [beq_eq_false_iff_ne]
  intro h
  have hlen : ("VISIT" : String).length = ("CONTACT_SUBMIT:" ++ n).length := by
    rw [h]
  rw [String.length_append] at hlen
  have h5 : ("VISIT" : String).length = 5 := rfl
  have h15 : ("CONTACT_SUBMIT:" : String).length = 15 := rfl
  rw [h5, h15] at hlen
  omega

lemma firstLineChars_append (s t : List Char)
    (hs : ∀ c ∈ s, ¬c = Char.ofNat 13) :
    firstLineChars (s ++ Char.ofNat 13 :: t) = s := by
  induction s with
  | nil => simp [firstLineChars]
  | cons c cs ih =>
    have hc : ¬c = Char.ofNat 13 := hs c (List.mem_cons_self c cs)
    have ih2 := ih (fun d hd => hs d (List.mem_cons_of_mem c hd))
    simp [firstLineChars, hc, ih2]

/-! ### Claim theorems -/

/-- Claim C5: every user-agent string whose lowercase form contains
"chrome" classifies as browser Chrome (even when it also contains
"safari", since the chrome test comes first); the example UA
"Mozilla/5.0 (Windows NT 10.0) Chrome/91.0" classifies as
(Chrome, Windows); and the classifier is total, returning a pair of
strings on every input including the empty string and `None`. -/
theorem C5_chrome_priority :
    (∀ s : String, strIn "chrome" (pyLower s) = true →
      (parse_user_agent (some s)).1 = "Chrome") ∧
    parse_user_agent (some "Mozilla/5.0 (Windows NT 10.0) Chrome/91.0") =
      ("Chrome", "Windows") ∧
    parse_user_agent (some "") = ("Unknown", "Unknown") ∧
    parse_user_agent none = ("Unknown", "Unknown") := by
  refine ⟨?_, rfl, rfl, rfl⟩
  intro s h
  cases hbe : (s == "") with
  | true =>
    exfalso
    have hs : s = "" := by simpa using hbe
    rw [hs] at h
    exact absurd h (by decide)
  | false =>
    simp [parse_user_agent, hbe, h]

/-- Witness for C5: a UA string containing both "chrome" and "safari"
classifies as Chrome. -/
theorem C5_chrome_priority_witness :
    (parse_user_agent (some "Mozilla/5.0 Chrome/91.0 Safari/537.36")).1 =
      "Chrome" :=
  C5_chrome_priority.1 "Mozilla/5.0 Chrome/91.0 Safari/537.36" (by decide)

/-- Claim C10: every user-agent string whose lowercase form contains "mac"
(as iPhone/iPad UAs do, via "like Mac OS X") and not "windows" classifies
as platform macOS, never iOS, because the "mac" test precedes the
"iphone"/"ipad" tests. -/
theorem C10_mac_precedes_ios :
    ∀ s : String, strIn "mac" (pyLower s) = true →
      strIn "windows" (pyLower s) = false →
      (parse_user_agent (some s)).2 = "macOS" := by
  intro s h1 h2
  cases hbe : (s == "") with
  | true =>
    exfalso
    have hs : s = "" := by simpa using hbe
    rw [hs] at h1
    exact absurd h1 (by decide)
  | false =>
    simp [parse_user_agent, hbe, h1, h2]

/-- Witness for C10: an iPhone UA (which contains "like Mac OS X")
classifies as macOS, not iOS. -/
theorem C10_mac_precedes_ios_witness :
    (parse_user_agent
      (some "Mozilla/5.0 (iPhone; CPU iPhone OS 14_0 like Mac OS X)")).2 =
      "macOS" :=
  C10_mac_precedes_ios "Mozilla/5.0 (iPhone; CPU iPhone OS 14_0 like Mac OS X)"
    (by decide) (by decide)

/-- Counterexample to claim C4 as stated: with a forwarded-for header that
is present but empty and a real-IP header "9.9.9.9", the code returns
"9.9.9.9", not the first comma-separated value of the forwarded-for header
(which is the empty string): Python's truthiness test treats a present but
empty header as absent. -/
theorem C4_counterexample :
    reqForwardEmpty.xForwardedFor = some "" ∧
    get_client_ip reqForwardEmpty = "9.9.9.9" ∧
    pyFirstSplit "" = "" ∧
    (("9.9.9.9" : String) == "") = false :=
  ⟨rfl, rfl, rfl, rfl⟩

/-- Claim C4, amended: the client IP is chosen by priority — forwarded-for
header, when present with a NON-EMPTY value (first comma-separated value);
else real-IP header, when present with a non-empty value; else the raw
connection address when present; else the literal "Unknown". -/
theorem C4_amended (req : Request) :
    (∀ s, req.xForwardedFor = some s → s ≠ "" →
      get_client_ip req = pyFirstSplit s) ∧
    ((req.xForwardedFor = none ∨ req.xForwardedFor = some "") →
      ∀ s, req.xRealIp = some s → s ≠ "" → get_client_ip req = s) ∧
    ((req.xForwardedFor = none ∨ req.xForwardedFor = some "") →
      (req.xRealIp = none ∨ req.xRealIp = some "") →
      ∀ a, req.remoteAddr = some a → get_client_ip req = a) ∧
    ((req.xForwardedFor = none ∨ req.xForwardedFor = some "") →
      (req.xRealIp = none ∨ req.xRealIp = some "") →
      req.remoteAddr = none → get_client_ip req = "Unknown") := by
  refine ⟨?_, ?_, ?_, ?_⟩
  · intro s hf hne
    simp [get_client_ip, envTruthy, hf, hne]
  · rintro (hf | hf) s hr hne <;>
      simp [get_client_ip, envTruthy, hf, hr, hne]
  · rintro (hf | hf) (hr | hr) a ha <;>
      simp [get_client_ip, envTruthy, hf, hr, ha]
  · rintro (hf | hf) (hr | hr) ha <;>
      simp [get_client_ip, envTruthy, hf, hr, ha]

/-- Witness for the amended C4: a multi-valued forwarded-for header yields
its first comma-separated value. -/
theorem C4_amended_witness :
    get_client_ip reqForwardMulti = pyFirstSplit "7.7.7.7,8.8.8.8" ∧
    pyFirstSplit "7.7.7.7,8.8.8.8" = "7.7.7.7" :=
  ⟨(C4_amended reqForwardMulti).1 "7.7.7.7,8.8.8.8" rfl (by decide), rfl⟩

/-- Claim C3: when the persistence step of the Visit Logger fails, the error
is swallowed (the attempt's exception never escapes `log_visitor`, which
still returns a state), the transaction is rolled back so zero Visitor rows
are inserted, and the triggering request proceeds with the Visitor table
unchanged. -/
theorem C3_failure_swallowed :
    ∀ (ctx : Ctx) (sess : Option String) (req : Request) (db : DB)
      (now : Nat) (sess2 : Option String) (fb page action : String),
      ctx.visitOk = false →
      log_visitor_attempt false now sess2 fb req page action db =
        Except.error "DB failure" ∧
      log_visitor false now sess2 fb req page action db = db ∧
      (handle_request ctx sess req db).2.2.visitors = db.visitors := by
  intro ctx sess req db now sess2 fb page action hvk
  refine ⟨rfl, rfl, ?_⟩
  rw [handle_request_visitors]
  have h1 : newRowsModel ctx sess req db.visitors.length = [] := by
    unfold newRowsModel mwRows handlerRows
    cases hc : handlerCall ctx.msgOk req <;> simp [hvk, hc]
  simp [h1]

/-- Witness for C3 at a concrete failing environment. -/
theorem C3_failure_swallowed_witness :
    log_visitor_attempt false 0 (some "S") "F" reqIndex "/" "VISIT"
        ⟨[rowA], []⟩ = Except.error "DB failure" ∧
    log_visitor false 0 (some "S") "F" reqIndex "/" "VISIT" ⟨[rowA], []⟩ =
      ⟨[rowA], []⟩ ∧
    (handle_request ctxVisitFail none reqIndex ⟨[rowA], []⟩).2.2.visitors =
      [rowA] :=
  C3_failure_swallowed ctxVisitFail none reqIndex ⟨[rowA], []⟩ 0 (some "S")
    "F" "/" "VISIT" rfl

/-- Counterexample to claim C1 as stated: a GET request to `/portfolio`
(whose path neither starts with the static prefix nor is the admin log
path) appends TWO Visitor rows when logging succeeds — one from the
`before_request` middleware and one from the handler's own
`log_visitor` call — so "no request appends more than one Visitor row"
fails. -/
theorem C1_counterexample :
    pyStartswith "/static" reqPortfolio.path = false ∧
    (reqPortfolio.path == "/admin/logs") = false ∧
    (handle_request ctxAllOk none reqPortfolio ⟨[], []⟩).2.2.visitors.length
      = 2 :=
  ⟨rfl, rfl, rfl⟩

/-- Claim C1, amended: a request whose path is neither static nor the admin
log path appends exactly one Visitor row from the middleware (zero when
logging fails); requests dispatched to the `/portfolio`, `/about` or
`/contact` handlers (for POST `/contact`, when the message persists)
append one additional row from the handler's own Visit-Logger call, so
such requests append two; no request ever appends more than two. -/
theorem C1_amended :
    ∀ (ctx : Ctx) (sess : Option String) (req : Request) (db : DB),
      pyStartswith "/static" req.path = false →
      req.path ≠ "/admin/logs" →
      (handle_request ctx sess req db).2.2.visitors.length =
        db.visitors.length +
          (if ctx.visitOk then
            (if (handlerCall ctx.msgOk req).isSome then 2 else 1)
           else 0) := by
  intro ctx sess req db hs hl
  have hmw : mwLogs req = true := by
    simp [mwLogs, hs, hl]
  rw [handle_request_visitors, List.length_append]
  congr 1
  cases hvk : ctx.visitOk <;>
    rcases hc : handlerCall ctx.msgOk req with _ | pa <;>
      simp [newRowsModel, mwRows, handlerRows, hmw, hvk, hc]

/-- Witness for the amended C1: the index page request appends exactly one
row (the middleware's). -/
theorem C1_amended_witness :
    (handle_request ctxAllOk (some "S") reqIndex ⟨[], []⟩).2.2.visitors.length
      = 1 :=
  C1_amended ctxAllOk (some "S") reqIndex ⟨[], []⟩ rfl (by decide)

/-- Claim C2: a contact-form POST with all three fields present (and
successful persistence) appends exactly one new ContactMessage row, appends
exactly one new Visitor row whose action tag is `CONTACT_SUBMIT:<name>`,
and returns the success payload. -/
theorem C2_contact_flow :
    ∀ (ctx : Ctx) (sess : Option String) (req : Request) (db : DB)
      (n e m : String),
      ctx.visitOk = true → ctx.msgOk = true →
      req.path = "/contact" → req.httpMethod = "POST" →
      req.formName = some n → req.formEmail = some e →
      req.formMessage = some m →
      ((handle_request ctx sess req db).2.2.messages =
        db.messages ++
          [{ id := db.messages.length + 1, name := n, email := e,
             message := m, ipAddress := get_client_ip req,
             timestamp := ctx.now, readFlag := false }]) ∧
      (((handle_request ctx sess req db).2.2.visitors.drop
          db.visitors.length).countP
            (fun v => v.action == "CONTACT_SUBMIT:" ++ n) = 1) ∧
      ((handle_request ctx sess req db).1 =
        .jsonStatus "success" "Message envoyé avec succès!") := by
  intro ctx sess req db n e m hvok hmok hpath hmeth hname hemail hmsg2
  have h1 : ¬req.path = "/" := by rw [hpath]; decide
  have h2 : ¬req.path = "/portfolio" := by rw [hpath]; decide
  have h3 : ¬req.path = "/about" := by rw [hpath]; decide
  have hget : ¬req.httpMethod = "GET" := by rw [hmeth]; decide
  refine ⟨?_, ?_, ?_⟩
  · rw [handle_request_messages]
    simp [newMsgsModel, hpath, hmeth, hname, hemail, hmsg2, hmok]
  · rw [handle_request_visitors, List.drop_left]
    have hmw : mwLogs req = true := by
      simp only [mwLogs, hpath]
      decide
    have hhc : handlerCall ctx.msgOk req =
        some ("/contact", "CONTACT_SUBMIT:" ++ n) := by
      simp [handlerCall, h2, h3, hpath, hmeth, hget, hname, hemail, hmsg2,
        hmok]
    simp [newRowsModel, mwRows, handlerRows, hmw, hhc, hvok,
      List.countP_cons, mkVisitorRow, visit_ne_tag]
  · simp only [handle_request, before_request_eq]
    simp [dispatch, contact_submit, h1, h2, h3, hpath, hget, hmeth, hname,
      hemail, hmsg2, hmok]

/-- Witness for C2 at a concrete valid contact POST. -/
theorem C2_contact_flow_witness :
    ((handle_request ctxAllOk (some "S") reqContact ⟨[], []⟩).2.2.messages =
      [{ id := 1, name := "Alice", email := "a@b.c", message := "hi",
         ipAddress := get_client_ip reqContact, timestamp := 0,
         readFlag := false }]) ∧
    (((handle_request ctxAllOk (some "S") reqContact ⟨[], []⟩).2.2.visitors.drop
        0).countP (fun v => v.action == "CONTACT_SUBMIT:" ++ "Alice") = 1) ∧
    ((handle_request ctxAllOk (some "S") reqContact ⟨[], []⟩).1 =
      .jsonStatus "success" "Message envoyé avec succès!") :=
  C2_contact_flow ctxAllOk (some "S") reqContact ⟨[], []⟩ "Alice" "a@b.c"
    "hi" rfl rfl rfl rfl rfl rfl rfl

/-- Claim C6: the session id is assigned once (on the first request, when
the session store is empty) and reused on the next request, and every
Visitor row written during the two requests of the session carries that
same session id. -/
theorem C6_session_stable :
    ∀ (ctx1 ctx2 : Ctx) (req1 req2 : Request) (db : DB),
      ((handle_request ctx1 none req1 db).2.1 = some ctx1.fresh) ∧
      ((handle_request ctx2 (handle_request ctx1 none req1 db).2.1 req2
          (handle_request ctx1 none req1 db).2.2).2.1 = some ctx1.fresh) ∧
      (∀ v ∈ (handle_request ctx2 (handle_request ctx1 none req1 db).2.1 req2
          (handle_request ctx1 none req1 db).2.2).2.2.visitors.drop
            db.visitors.length,
        v.sessionId = ctx1.fresh) := by
  intro ctx1 ctx2 req1 req2 db
  have e1 := handle_request_sess ctx1 none req1 db
  refine ⟨e1, ?_, ?_⟩
  · rw [e1, handle_request_sess]
    rfl
  · intro v hv
    rw [e1, handle_request_visitors, handle_request_visitors,
      List.append_assoc, List.drop_left] at hv
    rcases List.mem_append.mp hv with h | h
    · exact newRowsModel_sid ctx1 none req1 db.visitors.length v h
    · exact newRowsModel_sid ctx2 (some (sidAfter ctx1 none)) req2 _ v h

/-- Witness for C6: two index requests in one session, with the first
middleware row carrying the session id assigned on the first request. -/
theorem C6_session_stable_witness :
    ((handle_request ctxAllOk none reqIndex ⟨[], []⟩).2.1 = some "S") ∧
    (mkVisitorRow 1 0 (some "S") "F" reqIndex "/" "VISIT").sessionId = "S" :=
  ⟨(C6_session_stable ctxAllOk ctxAllOk reqIndex reqIndex ⟨[], []⟩).1,
   (C6_session_stable ctxAllOk ctxAllOk reqIndex reqIndex ⟨[], []⟩).2.2
     (mkVisitorRow 1 0 (some "S") "F" reqIndex "/" "VISIT") (by decide)⟩

/-- Claim C7: handling a request to the raw log-retrieval admin path
`/admin/logs`, or to any path starting with the static-asset prefix, leaves
the Visitor table unchanged. -/
theorem C7_skip_static_and_admin_logs :
    ∀ (ctx : Ctx) (sess : Option String) (req : Request) (db : DB),
      (pyStartswith "/static" req.path = true ∨ req.path = "/admin/logs") →
      (handle_request ctx sess req db).2.2.visitors = db.visitors := by
  intro ctx sess req db h
  rw [handle_request_visitors]
  have hmw : mwLogs req = false := by
    rcases h with h | h
    · simp [mwLogs, h]
    · simp [mwLogs, h]
  have hhc : handlerCall ctx.msgOk req = none := by
    rcases h with h | h
    · unfold handlerCall
      by_cases h2 : req.path = "/portfolio"
      · rw [h2] at h
        exact absurd h (by decide)
      · by_cases h3 : req.path = "/about"
        · rw [h3] at h
          exact absurd h (by decide)
        · by_cases h4 : req.path = "/contact"
          · rw [h4] at h
            exact absurd h (by decide)
          · simp [h2, h3, h4]
    · simp [handlerCall, h]
  simp [newRowsModel, mwRows, handlerRows, hmw, hhc]

/-- Witness for C7: a GET of `/admin/logs` over a one-row table leaves the
table as it was. -/
theorem C7_skip_static_and_admin_logs_witness :
    (handle_request ctxAllOk (some "S") reqAdminLogs
      ⟨[rowA], []⟩).2.2.visitors = (⟨[rowA], []⟩ : DB).visitors :=
  C7_skip_static_and_admin_logs ctxAllOk (some "S") reqAdminLogs ⟨[rowA], []⟩
    (Or.inr rfl)

/-- Claim C8: the `unique_visitors` value of both the admin logs and admin
stats payloads is the count of distinct `ip_address` values in the Visitor
table — not the count of distinct `session_id` values, as the two-session
single-IP database shows (1 versus 2). -/
theorem C8_unique_by_ip :
    (∀ db : DB, respUnique (admin_logs db) =
      some (distinctCount (db.visitors.map VisitorRow.ipAddress))) ∧
    (∀ (now : Nat) (db : DB), respUnique (admin_stats now db) =
      some (distinctCount (db.visitors.map VisitorRow.ipAddress))) ∧
    respUnique (admin_logs dbTwoSessions) = some 1 ∧
    respUnique (admin_stats 0 dbTwoSessions) = some 1 ∧
    distinctCount (dbTwoSessions.visitors.map VisitorRow.sessionId) = 2 := by
  refine ⟨fun db => rfl, fun now db => rfl, ?_, ?_, ?_⟩ <;> decide

/-- Claim C9: exporting an empty Visitor table yields a CSV whose header
line is empty and which has no data rows (the body is a single CRLF);
with at least one row, the header line is the comma-join of the field
names of the first row's dict. -/
theorem C9_export_header :
    (∀ db : DB, db.visitors = [] →
      export_logs db = .csvAttachment (String.mk crlf)) ∧
    (∀ (db : DB) (v : VisitorRow) (rest : List VisitorRow),
      sortedByTsDesc db.visitors = v :: rest →
      (respCsv (export_logs db)).map
          (fun b => String.mk (firstLineChars b.data)) =
        some (String.mk (csvLineChars ((exportDict v).map Prod.fst)))) := by
  constructor
  · intro db h
    simp [export_logs, h, sortedByTsDesc, sortDescBy, csvLineChars,
      interComma, joinLinesChars]
  · intro db v rest h
    have hfields : (exportDict v).map Prod.fst =
        ["id", "session_id", "ip_address", "user_agent", "timestamp",
         "page", "action", "referrer", "host", "method", "platform",
         "browser"] := rfl
    simp only [export_logs, h, List.map_cons, hfields, respCsv,
      Option.map_some', joinLinesChars, crlf, List.cons_append,
      List.nil_append]
    refine congrArg (fun l => some (String.mk l)) ?_
    rw [List.append_assoc]
    exact firstLineChars_append _ _ (by decide)

/-- Witness for C9: the empty export and a two-row export, whose header is
the field-name line of the most recent row. -/
theorem C9_export_header_witness :
    export_logs ⟨[], []⟩ = .csvAttachment (String.mk crlf) ∧
    (respCsv (export_logs dbTwoSessions)).map
        (fun b => String.mk (firstLineChars b.data)) =
      some (String.mk (csvLineChars ((exportDict rowB).map Prod.fst))) :=
  ⟨C9_export_header.1 ⟨[], []⟩ rfl,
   C9_export_header.2 dbTwoSessions rowB [rowA] (by decide)⟩

end Photo
